import Mathlib

/-!
Shallow embedding of the BlogAPI service layer (App/services.py, App/models.py,
App/routes.py). The relational store is modelled as lists of rows; each service
method becomes a pure function that returns its Python (result, error) pair as
an Except value, paired with the successor store state where the method mutates
the database. Timestamps are natural numbers, the bcrypt hash is an abstract
parameter, and pagination models the item slice produced by
paginate(page, per_page, error_out=False).
-/

namespace BlogAPI

/-- Row of the users table (models.User): id, unique username and email,
password hash, active flag. The created_at column plays no role in any
claim and is omitted. -/
structure User where
  id : Nat
  username : String
  email : String
  password_hash : String
  is_active : Bool
deriving Repr, DecidableEq

/-- Row of the posts table (models.Post). published_at and updated_at are
modelled as Nat timestamps. -/
structure Post where
  id : Nat
  title : String
  body : String
  author : String
  author_id : Option Nat
  published_at : Nat
  updated_at : Nat
  is_published : Bool
deriving Repr, DecidableEq

/-- Row of the votes table (models.Vote): vote_type true means upvote.
The surrogate primary key and created_at play no role in any claim. -/
structure Vote where
  user_id : Nat
  post_id : Nat
  vote_type : Bool
deriving Repr, DecidableEq

/-- Row of the comments table (models.Comment). -/
structure Comment where
  id : Nat
  content : String
  author_id : Nat
  post_id : Nat
  is_active : Bool
deriving Repr, DecidableEq

/-- The relational store: one list of rows per table, in insertion order. -/
structure St where
  users : List User
  posts : List Post
  votes : List Vote
  comments : List Comment
deriving Repr, DecidableEq

/-- Python str.strip(): whitespace removed from both ends. The core function
String.trim is defined by well-founded recursion and is opaque to kernel
reduction, so the model computes the same value on the character list. -/
def pyStrip (s : String) : String :=
  ⟨((s.toList.dropWhile Char.isWhitespace).reverse.dropWhile
      Char.isWhitespace).reverse⟩

/-- Python str.lower() and the case folding of SQL ILIKE, computed on the
character list for the same kernel-reduction reason. -/
def strLower (s : String) : String :=
  ⟨s.toList.map Char.toLower⟩

/-- Python truthiness of an optional string argument: None and the empty
string are falsy (the `if title:` checks in PostService.update_post). -/
def truthyStr : Option String → Bool
  | none => false
  | some s => !(s == "")

/-- Python truthiness of an optional integer argument: None and 0 are falsy
(the `if author_id:` checks in update_post and delete_post). -/
def truthyNat : Option Nat → Bool
  | none => false
  | some n => !(n == 0)

/-- Primary-key lookup Post.query.get(post_id): the row with that id
(ids are unique, so the first match is the row). -/
def getPost (s : St) (post_id : Nat) : Option Post :=
  s.posts.find? (fun p => p.id == post_id)

/-- Item slice of flask-sqlalchemy paginate(page, per_page, error_out=False):
page numbers below 1 are clamped to 1, a page past the end yields an empty
item list rather than an error. -/
def paginate (l : List Post) (page per_page : Nat) : List Post :=
  (l.drop ((max page 1 - 1) * per_page)).take per_page

/-- Stable insertion of one element into a list ordered by the boolean
comparator le (the order the database returns rows under ORDER BY). -/
def insertOrd (le : Post → Post → Bool) (a : Post) : List Post → List Post
  | [] => [a]
  | b :: t => if le a b then a :: b :: t else b :: insertOrd le a t

/-- Stable sort by the boolean comparator le, modelling ORDER BY. -/
def orderBy (le : Post → Post → Bool) : List Post → List Post
  | [] => []
  | a :: t => insertOrd le a (orderBy le t)

/-- Names of Post attributes that are plain Python properties computed from
other tables (models.Post upvotes, downvotes, vote_score, comment_count),
not mapped columns. getattr(Post, name) yields the property object itself;
calling .desc() on it or passing it to order_by raises, the except block
catches the exception, and get_all_posts returns an error. -/
def postProperties : List String :=
  ["upvotes", "downvotes", "vote_score", "comment_count"]

/-- Ascending comparison by the sort column chosen in get_all_posts via
getattr(Post, sort_by, Post.published_at). The route schema only admits
published_at, title and vote_score; title compares lexicographically,
any other column name that reaches the fallback compares by published_at. -/
def postLe (sort_by : String) (a b : Post) : Bool :=
  if sort_by == ("title") then decide (a.title ≤ b.title)
  else decide (a.published_at ≤ b.published_at)

/-- PostService.get_all_posts(page, per_page, sort_by, order): filters to
is_published == True, orders by the sort column (descending when
order.lower() is desc), and paginates. When sort_by names one of the
non-column Python properties the query construction raises and the
caught exception is returned as the error string. -/
def get_all_posts (s : St) (page per_page : Nat) (sort_by order : String) :
    Except String (List Post) :=
  if postProperties.contains sort_by then
    .error (if strLower order == ("desc") then
              ("AttributeError: property object has no attribute desc")
            else
              ("ArgumentError: property object is not an order_by expression"))
  else
    let le := postLe sort_by
    let cmp := if strLower order == ("desc") then (fun a b => le b a) else le
    .ok (paginate (orderBy cmp (s.posts.filter (fun p => p.is_published)))
          page per_page)

/-- Containment of one character list in another, used for the substring
semantics of the LIKE pattern with a wildcard on both sides. -/
def charsInfix : List Char → List Char → Bool
  | needle, [] => needle.isEmpty
  | needle, c :: t => needle.isPrefixOf (c :: t) || charsInfix needle t

/-- Case-insensitive substring test modelling
column.ilike(percent ++ term ++ percent). -/
def ilikeContains (term s : String) : Bool :=
  charsInfix (strLower term).toList (strLower s).toList

/-- PostService.search_posts(query, page, per_page): a blank query delegates
to get_all_posts with its default sort (published_at, desc); otherwise
published posts whose title or body contains the stripped query
case-insensitively, newest first, paginated. -/
def search_posts (s : St) (q : String) (page per_page : Nat) :
    Except String (List Post) :=
  if q == ("") || pyStrip q == ("") then
    get_all_posts s page per_page ("published_at") ("desc")
  else
    let term := pyStrip q
    .ok (paginate
          (orderBy (fun a b => decide (b.published_at ≤ a.published_at))
            (s.posts.filter
              (fun p => p.is_published &&
                (ilikeContains term p.title || ilikeContains term p.body))))
          page per_page)

/-- PostService.get_post_by_id(post_id): the row by primary key, or the
error string used by the service when the row is absent. -/
def get_post_by_id (s : St) (post_id : Nat) : Except String Post :=
  match getPost s post_id with
  | none => .error ("Post not found")
  | some p => .ok p

/-- PostService.update_post(post_id, title, body, author_id): partial update
inside one transaction. Each field is applied only when truthy (so None,
the empty string and the integer 0 are skipped), string fields are
stripped, updated_at is always refreshed. Returns the updated row and the
store with that row replaced. -/
def update_post (s : St) (post_id : Nat) (title body : Option String)
    (author_id : Option Nat) (now : Nat) : Except String Post × St :=
  match getPost s post_id with
  | none => (.error ("Post not found"), s)
  | some post =>
    let p1 := if truthyStr title then
                { post with title := pyStrip (title.getD ("")) } else post
    let p2 := if truthyStr body then
                { p1 with body := pyStrip (body.getD ("")) } else p1
    let p3 := if truthyNat author_id then
                { p2 with author_id := author_id } else p2
    let p4 := { p3 with updated_at := now }
    (.ok p4,
     { s with posts := s.posts.map (fun q => if q.id == post_id then p4 else q) })

/-- PostService.delete_post(post_id, author_id): authorization check first
(a truthy author_id that differs from the post author fails and the
transaction leaves the store untouched), then the row is deleted and the
delete cascades to the votes and comments of the post. -/
def delete_post (s : St) (post_id : Nat) (author_id : Option Nat) :
    (Bool × Option String) × St :=
  match getPost s post_id with
  | none => ((false, some ("Post not found")), s)
  | some post =>
    if truthyNat author_id && !(post.author_id == author_id) then
      ((false, some ("Unauthorized to delete this post")), s)
    else
      ((true, none),
       { s with
         posts := s.posts.filter (fun p => !(p.id == post_id)),
         votes := s.votes.filter (fun v => !(v.post_id == post_id)),
         comments := s.comments.filter (fun c => !(c.post_id == post_id)) })

/-- Fresh primary key for an inserted post, modelling the autoincrement
column: one more than the largest id in the table. -/
def nextPostId (s : St) : Nat :=
  (s.posts.map Post.id).foldr max 0 + 1

/-- PostService.create_post(title, body, author, author_id): strips the
string fields and inserts a new row with the column defaults
(is_published True, both timestamps now). -/
def create_post (s : St) (title body author : String) (author_id : Option Nat)
    (now : Nat) : Except String Post × St :=
  let post : Post :=
    { id := nextPostId s, title := pyStrip title, body := pyStrip body,
      author := pyStrip author, author_id := author_id,
      published_at := now, updated_at := now, is_published := true }
  (.ok post, { s with posts := s.posts ++ [post] })

/-- First vote row of a user on a post:
Vote.query.filter_by(user_id, post_id).first(), as used by vote_post and
get_user_vote_on_post. -/
def findVote (votes : List Vote) (uid pid : Nat) : Option Vote :=
  votes.find? (fun v => v.user_id == uid && v.post_id == pid)

/-- Deletion of the first (user_id, post_id) row, modelling
db.session.delete(existing_vote) in the toggle-off branch. -/
def eraseVote : List Vote → Nat → Nat → List Vote
  | [], _, _ => []
  | v :: t, uid, pid =>
    if v.user_id == uid && v.post_id == pid then t
    else v :: eraseVote t uid pid

/-- In-place retyping of the first (user_id, post_id) row, modelling
existing_vote.vote_type = vote_type in the switch branch. -/
def updateVote : List Vote → Nat → Nat → Bool → List Vote
  | [], _, _, _ => []
  | v :: t, uid, pid, vt =>
    if v.user_id == uid && v.post_id == pid then
      { v with vote_type := vt } :: t
    else v :: updateVote t uid pid vt

/-- VoteService.vote_post(user_id, post_id, vote_type): fails when the post
is absent; otherwise an existing vote of the same type is removed, an
existing vote of the other type is retyped, and an absent vote is
inserted. The result carries the vote_action string the service puts in
the returned post dictionary. -/
def vote_post (s : St) (uid pid : Nat) (vt : Bool) : Except String String × St :=
  match getPost s pid with
  | none => (.error ("Post not found"), s)
  | some _ =>
    match findVote s.votes uid pid with
    | some ev =>
      if ev.vote_type == vt then
        (.ok ("removed"), { s with votes := eraseVote s.votes uid pid })
      else
        (.ok ("updated"), { s with votes := updateVote s.votes uid pid vt })
    | none =>
      (.ok ("added"),
       { s with votes := s.votes ++ [{ user_id := uid, post_id := pid, vote_type := vt }] })

/-- Vote state of a (user, post) pair: the type of the first stored vote,
if any (VoteService.get_user_vote_on_post). -/
def userVote (s : St) (uid pid : Nat) : Option Bool :=
  (findVote s.votes uid pid).map (fun v => v.vote_type)

/-- Upvote count over a votes table
(the filter_by(post_id, vote_type=True).count() of models.Post.upvotes). -/
def upvotesL (votes : List Vote) (pid : Nat) : Nat :=
  (votes.filter (fun v => v.post_id == pid && v.vote_type == true)).length

/-- Downvote count over a votes table (models.Post.downvotes). -/
def downvotesL (votes : List Vote) (pid : Nat) : Nat :=
  (votes.filter (fun v => v.post_id == pid && v.vote_type == false)).length

/-- Net score over a votes table
(models.Post.vote_score = upvotes - downvotes). -/
def vote_scoreL (votes : List Vote) (pid : Nat) : Int :=
  (upvotesL votes pid : Int) - (downvotesL votes pid : Int)

/-- Upvote count of a post in a store (models.Post.upvotes). -/
def upvotes (s : St) (pid : Nat) : Nat :=
  upvotesL s.votes pid

/-- Downvote count of a post in a store (models.Post.downvotes). -/
def downvotes (s : St) (pid : Nat) : Nat :=
  downvotesL s.votes pid

/-- Net score of a post in a store (models.Post.vote_score). -/
def vote_score (s : St) (pid : Nat) : Int :=
  vote_scoreL s.votes pid

/-- Uniqueness key of a vote row, the column pair of the
unique_user_post_vote constraint. -/
def voteKey (v : Vote) : Nat × Nat :=
  (v.user_id, v.post_id)

/-- The votes-table invariant enforced by the uniqueness constraint on
(user_id, post_id): no two rows share that key pair. -/
def UniqueVotes (votes : List Vote) : Prop :=
  (votes.map voteKey).Nodup

instance (votes : List Vote) : Decidable (UniqueVotes votes) :=
  inferInstanceAs (Decidable ((votes.map voteKey).Nodup))

/-- UserService.authenticate_user(username, password): looks the user up by
username and succeeds exactly on a hash match for an active user; every
failure path returns the one generic error string. The bcrypt check is
the abstract parameter checkHash, applied to the stored hash and the
submitted password. -/
def authenticate_user (checkHash : String → String → Bool) (users : List User)
    (username password : String) : Except String User :=
  match users.find? (fun u => u.username == username) with
  | some user =>
    if checkHash user.password_hash password && user.is_active then .ok user
    else .error ("Invalid credentials")
  | none => .error ("Invalid credentials")

/-- Fresh primary key for an inserted user. -/
def nextUserId (s : St) : Nat :=
  (s.users.map User.id).foldr max 0 + 1

/-- UserService.create_user(username, email, password): strips username and
email, stores the hash of the password, and surfaces the uniqueness
constraint of each column as its own already-exists error, rolling the
transaction back. -/
def create_user (hash : String → String) (s : St)
    (username email password : String) : Except String User × St :=
  let un := pyStrip username
  let em := pyStrip email
  if s.users.any (fun u => u.username == un) then
    (.error ("Username already exists"), s)
  else if s.users.any (fun u => u.email == em) then
    (.error ("Email already exists"), s)
  else
    let user : User := { id := nextUserId s, username := un, email := em,
                         password_hash := hash password, is_active := true }
    (.ok user, { s with users := s.users ++ [user] })

/-- Fresh primary key for an inserted comment. -/
def nextCommentId (s : St) : Nat :=
  (s.comments.map Comment.id).foldr max 0 + 1

/-- CommentService.create_comment(content, author_id, post_id): requires the
post to exist, strips the content, inserts an active comment. -/
def create_comment (s : St) (content : String) (author_id pid : Nat) :
    Except String Comment × St :=
  match getPost s pid with
  | none => (.error ("Post not found"), s)
  | some _ =>
    let c : Comment := { id := nextCommentId s, content := pyStrip content,
                         author_id := author_id, post_id := pid, is_active := true }
    (.ok c, { s with comments := s.comments ++ [c] })

/-- Decidable equality of service results, so that concrete runs of the model
can be checked by evaluation. -/
instance exceptDecEq (ε α : Type) [DecidableEq ε] [DecidableEq α] :
    DecidableEq (Except ε α) := fun a b =>
  match a, b with
  | .error x, .error y =>
    if h : x = y then isTrue (by rw [h]) else isFalse (by simp [h])
  | .error _, .ok _ => isFalse (by simp)
  | .ok _, .error _ => isFalse (by simp)
  | .ok x, .ok y =>
    if h : x = y then isTrue (by rw [h]) else isFalse (by simp [h])

/-- Sample published post used to instantiate the theorems. -/
def postA : Post :=
  { id := 1, title := ("First post"), body := ("Body of the first post"),
    author := ("alice"), author_id := some 1, published_at := 10,
    updated_at := 10, is_published := true }

/-- Sample unpublished post with a NULL author_id. -/
def postB : Post :=
  { id := 2, title := ("Second post"), body := ("Body of the second post"),
    author := ("bob"), author_id := none, published_at := 20,
    updated_at := 20, is_published := false }

/-- Sample active user row. -/
def userA : User :=
  { id := 1, username := ("alice"), email := ("alice-at-example.com"),
    password_hash := ("hashed-pw"), is_active := true }

/-- Sample store with one published and one unpublished post and no votes. -/
def sampleSt : St :=
  { users := [userA], posts := [postA, postB], votes := [], comments := [] }

/-- Sample store in which user 1 has already upvoted post 1. -/
def votedSt : St :=
  { users := [userA], posts := [postA, postB],
    votes := [{ user_id := 1, post_id := 1, vote_type := true }], comments := [] }

/-! Helper lemmas about the ordering, pagination and vote-table primitives. -/

theorem mem_insertOrd (le : Post → Post → Bool) (a x : Post) (l : List Post) :
    x ∈ insertOrd le a l ↔ x = a ∨ x ∈ l := by
  induction l with
  | nil => simp [insertOrd]
  | cons b t ih =>
    unfold insertOrd
    by_cases h : le a b = true
    · simp [h]
    · rw [if_neg h]
      simp only [List.mem_cons, ih]
      tauto

theorem mem_orderBy (le : Post → Post → Bool) (x : Post) (l : List Post) :
    x ∈ orderBy le l ↔ x ∈ l := by
  induction l with
  | nil => simp [orderBy]
  | cons a t ih => simp [orderBy, mem_insertOrd, ih]

theorem mem_paginate (l : List Post) (page per_page : Nat) (x : Post)
    (hx : x ∈ paginate l page per_page) : x ∈ l :=
  List.drop_subset _ _ (List.take_subset _ _ hx)

theorem find?_id_of_nodup (l : List Post) (p : Post)
    (hnd : (l.map Post.id).Nodup) (hp : p ∈ l) :
    l.find? (fun q => q.id == p.id) = some p := by
  induction l with
  | nil => cases hp
  | cons h t ih =>
    rw [List.map_cons, List.nodup_cons] at hnd
    rcases List.mem_cons.mp hp with rfl | hpt
    · simp
    · have hne : (h.id == p.id) = false := by
        refine beq_eq_false_iff_ne.mpr (fun he => hnd.1 ?_)
        exact he ▸ List.mem_map_of_mem Post.id hpt
      rw [List.find?_cons_of_neg _ (by simp [hne]), ih hnd.2 hpt]

theorem findVote_eq_none_iff (votes : List Vote) (uid pid : Nat) :
    findVote votes uid pid = none ↔ ∀ v ∈ votes, voteKey v ≠ (uid, pid) := by
  simp only [findVote, List.find?_eq_none, voteKey, Prod.ext_iff, ne_eq,
    Bool.and_eq_true, beq_iff_eq]

theorem findVote_cons (v : Vote) (t : List Vote) (uid pid : Nat) :
    findVote (v :: t) uid pid
      = if v.user_id == uid && v.post_id == pid then some v
        else findVote t uid pid := by
  by_cases h : (v.user_id == uid && v.post_id == pid) = true
  · rw [if_pos h]
    exact List.find?_cons_of_pos _ h
  · rw [if_neg h]
    exact List.find?_cons_of_neg _ h

theorem eraseVote_sublist (votes : List Vote) (uid pid : Nat) :
    List.Sublist (eraseVote votes uid pid) votes := by
  induction votes with
  | nil => simp [eraseVote]
  | cons v t ih =>
    unfold eraseVote
    by_cases h : (v.user_id == uid && v.post_id == pid) = true
    · rw [if_pos h]
      exact List.sublist_cons_self v t
    · rw [if_neg h]
      exact List.Sublist.cons₂ v ih

theorem updateVote_map_key (votes : List Vote) (uid pid : Nat) (vt : Bool) :
    (updateVote votes uid pid vt).map voteKey = votes.map voteKey := by
  induction votes with
  | nil => simp [updateVote]
  | cons v t ih =>
    by_cases h : (v.user_id == uid && v.post_id == pid) = true
    · simp [updateVote, h, voteKey]
    · simp [updateVote, h, ih]

theorem unique_eraseVote (votes : List Vote) (uid pid : Nat)
    (hu : UniqueVotes votes) : UniqueVotes (eraseVote votes uid pid) :=
  ((eraseVote_sublist votes uid pid).map voteKey).nodup hu

theorem unique_updateVote (votes : List Vote) (uid pid : Nat) (vt : Bool)
    (hu : UniqueVotes votes) : UniqueVotes (updateVote votes uid pid vt) := by
  unfold UniqueVotes
  rw [updateVote_map_key]
  exact hu

theorem unique_append_new (votes : List Vote) (uid pid : Nat) (vt : Bool)
    (hu : UniqueVotes votes) (hn : findVote votes uid pid = none) :
    UniqueVotes (votes ++ [{ user_id := uid, post_id := pid, vote_type := vt }]) := by
  unfold UniqueVotes
  rw [List.map_append, List.nodup_append]
  refine ⟨hu, List.nodup_singleton _, ?_⟩
  intro k hk hk1
  simp only [List.map_cons, List.map_nil, List.mem_singleton] at hk1
  rcases List.mem_map.mp hk with ⟨v, hv, rfl⟩
  exact (findVote_eq_none_iff votes uid pid).mp hn v hv (by simpa [voteKey] using hk1)

theorem findVote_eraseVote_self (votes : List Vote) (uid pid : Nat)
    (hu : UniqueVotes votes) :
    findVote (eraseVote votes uid pid) uid pid = none := by
  induction votes with
  | nil => simp [eraseVote, findVote]
  | cons v t ih =>
    unfold UniqueVotes at hu
    rw [List.map_cons, List.nodup_cons] at hu
    unfold eraseVote
    by_cases h : (v.user_id == uid && v.post_id == pid) = true
    · rw [if_pos h]
      refine (findVote_eq_none_iff t uid pid).mpr (fun w hw he => hu.1 ?_)
      have hk : voteKey v = (uid, pid) := by
        simp only [Bool.and_eq_true, beq_iff_eq] at h
        simp [voteKey, h.1, h.2]
      rw [hk, ← he]
      exact List.mem_map_of_mem voteKey hw
    · rw [if_neg h, findVote_cons, if_neg h]
      exact ih hu.2

theorem findVote_updateVote_self (votes : List Vote) (uid pid : Nat)
    (vt : Bool) (ev : Vote) (hf : findVote votes uid pid = some ev) :
    findVote (updateVote votes uid pid vt) uid pid
      = some { ev with vote_type := vt } := by
  induction votes with
  | nil => simp [findVote] at hf
  | cons v t ih =>
    rw [findVote_cons] at hf
    unfold updateVote
    by_cases h : (v.user_id == uid && v.post_id == pid) = true
    · rw [if_pos h, Option.some.injEq] at hf
      rw [if_pos h, findVote_cons, if_pos (by simpa using h), hf]
    · rw [if_neg h] at hf
      rw [if_neg h, findVote_cons, if_neg h]
      exact ih hf

theorem findVote_append_matching (votes : List Vote) (uid pid : Nat) (vt : Bool)
    (hn : findVote votes uid pid = none) :
    findVote (votes ++ [{ user_id := uid, post_id := pid, vote_type := vt }]) uid pid
      = some { user_id := uid, post_id := pid, vote_type := vt } := by
  unfold findVote at hn ⊢
  rw [List.find?_append, hn, Option.none_or]
  simp

theorem vote_post_preserves_unique (s : St) (uid pid : Nat) (vt : Bool)
    (hu : UniqueVotes s.votes) :
    UniqueVotes ((vote_post s uid pid vt).2.votes) := by
  unfold vote_post
  cases hpost : getPost s pid with
  | none => exact hu
  | some post =>
    cases hv : findVote s.votes uid pid with
    | none => exact unique_append_new s.votes uid pid vt hu hv
    | some ev =>
      by_cases ht : (ev.vote_type == vt) = true
      · simp only [ht, if_true]
        exact unique_eraseVote s.votes uid pid hu
      · simp only [ht, if_false]
        exact unique_updateVote s.votes uid pid vt hu

/-! Branch equations of vote_post, one per transition of the service. -/

theorem vote_post_absent (s : St) (uid pid : Nat) (vt : Bool)
    (hp : getPost s pid = none) :
    vote_post s uid pid vt = (.error ("Post not found"), s) := by
  unfold vote_post
  rw [hp]

theorem vote_post_added (s : St) (uid pid : Nat) (vt : Bool) (post : Post)
    (hp : getPost s pid = some post)
    (hn : findVote s.votes uid pid = none) :
    vote_post s uid pid vt
      = (.ok ("added"),
         { s with votes := s.votes
             ++ [{ user_id := uid, post_id := pid, vote_type := vt }] }) := by
  unfold vote_post
  rw [hp, hn]

theorem vote_post_removed (s : St) (uid pid : Nat) (vt : Bool) (post : Post)
    (ev : Vote) (hp : getPost s pid = some post)
    (he : findVote s.votes uid pid = some ev) (ht : ev.vote_type = vt) :
    vote_post s uid pid vt
      = (.ok ("removed"), { s with votes := eraseVote s.votes uid pid }) := by
  unfold vote_post
  rw [hp, he]
  simp [ht]

theorem vote_post_updated (s : St) (uid pid : Nat) (vt : Bool) (post : Post)
    (ev : Vote) (hp : getPost s pid = some post)
    (he : findVote s.votes uid pid = some ev) (ht : ev.vote_type ≠ vt) :
    vote_post s uid pid vt
      = (.ok ("updated"), { s with votes := updateVote s.votes uid pid vt }) := by
  unfold vote_post
  rw [hp, he]
  simp [ht]

theorem updateVote_append_of_none (l : List Vote) (uid pid : Nat) (vt : Bool)
    (v : Vote) (h : findVote l uid pid = none)
    (hm : (v.user_id == uid && v.post_id == pid) = true) :
    updateVote (l ++ [v]) uid pid vt = l ++ [{ v with vote_type := vt }] := by
  induction l with
  | nil => simp [updateVote, hm]
  | cons a t ih =>
    rw [findVote_cons] at h
    by_cases ha : (a.user_id == uid && a.post_id == pid) = true
    · rw [if_pos ha] at h
      cases h
    · rw [if_neg ha] at h
      simp only [List.cons_append]
      unfold updateVote
      rw [if_neg ha, ih h]

theorem filter_and_nil (votes : List Vote) (pid : Nat) (q : Vote → Bool)
    (h : votes.filter (fun v => v.post_id == pid) = []) :
    votes.filter (fun v => v.post_id == pid && q v) = [] := by
  rw [List.filter_eq_nil_iff] at h ⊢
  intro v hv
  simp only [Bool.and_eq_true, not_and]
  intro hpid
  exact absurd hpid (h v hv)

theorem findVote_none_of_no_post_votes (votes : List Vote) (uid pid : Nat)
    (h : votes.filter (fun v => v.post_id == pid) = []) :
    findVote votes uid pid = none := by
  rw [List.filter_eq_nil_iff] at h
  refine (findVote_eq_none_iff votes uid pid).mpr (fun v hv hk => ?_)
  have h2 : v.post_id = pid := congrArg Prod.snd hk
  exact h v hv (by simp [h2])

theorem scoreL_no_votes (w : List Vote) (pid : Nat)
    (hno : w.filter (fun v => v.post_id == pid) = []) :
    vote_scoreL w pid = 0 := by
  unfold vote_scoreL upvotesL downvotesL
  rw [filter_and_nil w pid (fun v => v.vote_type == true) hno,
    filter_and_nil w pid (fun v => v.vote_type == false) hno]
  rfl

theorem scoreL_single (w : List Vote) (pid uid : Nat) (b : Bool)
    (hno : w.filter (fun v => v.post_id == pid) = []) :
    vote_scoreL (w ++ [{ user_id := uid, post_id := pid, vote_type := b }]) pid
      = if b then 1 else -1 := by
  unfold vote_scoreL upvotesL downvotesL
  rw [List.filter_append, List.filter_append,
    filter_and_nil w pid (fun v => v.vote_type == true) hno,
    filter_and_nil w pid (fun v => v.vote_type == false) hno]
  cases b <;> simp

theorem update_post_found (s : St) (pid : Nat) (post : Post)
    (title body : Option String) (aid : Option Nat) (now : Nat)
    (hpost : getPost s pid = some post) :
    (update_post s pid title body aid now).1
      = .ok { post with
          title := if truthyStr title then pyStrip (title.getD ("")) else post.title,
          body := if truthyStr body then pyStrip (body.getD ("")) else post.body,
          author_id := if truthyNat aid then aid else post.author_id,
          updated_at := now } := by
  unfold update_post
  rw [hpost]
  by_cases ht : truthyStr title = true <;>
    by_cases hb : truthyStr body = true <;>
      by_cases ha : truthyNat aid = true <;>
        simp [ht, hb, ha]

/-! Claim theorems. -/

/-- C6: for every store, page and per_page, search_posts called with an empty
or blank query returns exactly the result of get_all_posts with its
default sort, published_at descending: the same posts in the same order. -/
theorem C6_blank_search_equals_default_list (s : St) (q : String)
    (page per_page : Nat) (hq : pyStrip q = ("")) :
    search_posts s q page per_page
      = get_all_posts s page per_page ("published_at") ("desc") := by
  unfold search_posts
  rw [if_pos (by simp [hq])]

/-- C6 witness: the blank-query equation instantiated on the sample store. -/
theorem C6_blank_search_equals_default_list_witness :
    pyStrip ("  ") = ("")
      ∧ search_posts sampleSt ("  ") 1 10
          = get_all_posts sampleSt 1 10 ("published_at") ("desc") :=
  ⟨by decide, C6_blank_search_equals_default_list sampleSt ("  ") 1 10 (by decide)⟩

/-- C7: evaluation of the code at the failing input of the claim. The claim
says get_all_posts succeeds for every sort_by in the set admitted by the
request schema, vote_score included; but models.Post.vote_score is a
plain Python property, not a mapped column, so building the query raises
and the service returns an error for sort_by vote_score under either
order, while the column sorts such as published_at succeed. -/
theorem C7_vote_score_sort_fails :
    get_all_posts sampleSt 1 10 ("vote_score") ("desc")
        = .error ("AttributeError: property object has no attribute desc")
      ∧ get_all_posts sampleSt 1 10 ("vote_score") ("asc")
        = .error ("ArgumentError: property object is not an order_by expression")
      ∧ get_all_posts sampleSt 1 10 ("published_at") ("desc") = .ok [postA] := by
  decide

/-- C8: authentication succeeds exactly when a user row with the username
exists, the stored hash matches the password, and the account is active;
and every failing call returns the single generic Invalid credentials
error, so unknown username, wrong password and inactive account are
indistinguishable from the result. -/
theorem C8_authenticate_exact_and_generic (checkHash : String → String → Bool)
    (users : List User) (username password : String) :
    ((∃ u, authenticate_user checkHash users username password = .ok u)
        ↔ (∃ u, users.find? (fun x => x.username == username) = some u
            ∧ checkHash u.password_hash password = true ∧ u.is_active = true))
      ∧ (∀ e, authenticate_user checkHash users username password = .error e
          → e = ("Invalid credentials")) := by
  cases hf : users.find? (fun x => x.username == username) with
  | none =>
    have he : authenticate_user checkHash users username password
        = .error ("Invalid credentials") := by
      unfold authenticate_user
      rw [hf]
    constructor
    · constructor
      · rintro ⟨u, hu⟩
        rw [he] at hu
        cases hu
      · rintro ⟨u, hu, -, -⟩
        cases hu
    · intro e hee
      rw [he] at hee
      exact (Except.error.inj hee).symm
  | some u =>
    by_cases hc : (checkHash u.password_hash password && u.is_active) = true
    · have hok : authenticate_user checkHash users username password = .ok u := by
        unfold authenticate_user
        rw [hf]
        exact if_pos hc
      rw [Bool.and_eq_true] at hc
      constructor
      · constructor
        · intro _
          exact ⟨u, rfl, hc.1, hc.2⟩
        · intro _
          exact ⟨u, hok⟩
      · intro e hee
        rw [hok] at hee
        cases hee
    · have herr : authenticate_user checkHash users username password
          = .error ("Invalid credentials") := by
        unfold authenticate_user
        rw [hf]
        exact if_neg hc
      constructor
      · constructor
        · rintro ⟨v, hv⟩
          rw [herr] at hv
          cases hv
        · rintro ⟨v, hv, hcheck, hact⟩
          obtain rfl := Option.some.inj hv
          exact absurd (by simp [hcheck, hact]) hc
      · intro e hee
        rw [herr] at hee
        exact (Except.error.inj hee).symm

/-- C8 witness: the characterization instantiated at a concrete store and a
wrong password, where the hash check is string equality. -/
theorem C8_authenticate_exact_and_generic_witness :
    ((∃ u, authenticate_user (fun h p => h == p) [userA] ("alice") ("bad") = .ok u)
        ↔ (∃ u, [userA].find? (fun x => x.username == ("alice")) = some u
            ∧ (fun h p => h == p) u.password_hash ("bad") = true
            ∧ u.is_active = true))
      ∧ (∀ e, authenticate_user (fun h p => h == p) [userA] ("alice") ("bad")
            = .error e → e = ("Invalid credentials")) :=
  C8_authenticate_exact_and_generic (fun h p => h == p) [userA] ("alice") ("bad")

/-- C2: from any store satisfying the one-vote-per-user-per-post invariant of
the unique_user_post_vote constraint, every operation of the system -
voting, deleting a post (with its cascade to votes), creating a post,
user or comment, and updating a post - leads to a store that satisfies
it again. -/
theorem C2_unique_votes_preserved (s : St) (hu : UniqueVotes s.votes) :
    (∀ uid pid vt, UniqueVotes ((vote_post s uid pid vt).2.votes))
      ∧ (∀ pid aid, UniqueVotes ((delete_post s pid aid).2.votes))
      ∧ (∀ t b a aid now, UniqueVotes ((create_post s t b a aid now).2.votes))
      ∧ (∀ h un em pw, UniqueVotes ((create_user h s un em pw).2.votes))
      ∧ (∀ c aid pid, UniqueVotes ((create_comment s c aid pid).2.votes))
      ∧ (∀ pid t b aid now,
          UniqueVotes ((update_post s pid t b aid now).2.votes)) := by
  refine ⟨fun uid pid vt => vote_post_preserves_unique s uid pid vt hu,
    ?_, ?_, ?_, ?_, ?_⟩
  · intro pid aid
    cases hp : getPost s pid with
    | none =>
      have hd : delete_post s pid aid = ((false, some ("Post not found")), s) := by
        unfold delete_post
        rw [hp]
      rw [hd]
      exact hu
    | some post =>
      by_cases hc : (truthyNat aid && !(post.author_id == aid)) = true
      · have hd : delete_post s pid aid
            = ((false, some ("Unauthorized to delete this post")), s) := by
          unfold delete_post
          rw [hp]
          exact if_pos hc
        rw [hd]
        exact hu
      · have hd : delete_post s pid aid
            = ((true, none),
               { s with
                 posts := s.posts.filter (fun p => !(p.id == pid)),
                 votes := s.votes.filter (fun v => !(v.post_id == pid)),
                 comments := s.comments.filter (fun c => !(c.post_id == pid)) }) := by
          unfold delete_post
          rw [hp]
          exact if_neg hc
        rw [hd]
        exact ((List.filter_sublist s.votes).map voteKey).nodup hu
  · intro t b a aid now
    exact hu
  · intro h un em pw
    unfold create_user
    by_cases h1 : (s.users.any fun u => u.username == pyStrip un) = true
    · rw [if_pos h1]
      exact hu
    · rw [if_neg h1]
      by_cases h2 : (s.users.any fun u => u.email == pyStrip em) = true
      · rw [if_pos h2]
        exact hu
      · rw [if_neg h2]
        exact hu
  · intro c aid pid
    unfold create_comment
    cases hp : getPost s pid with
    | none => exact hu
    | some post => exact hu
  · intro pid t b aid now
    unfold update_post
    cases hp : getPost s pid with
    | none => exact hu
    | some post => exact hu

/-- C2 witness: preservation applied on the sample store that already holds
one vote, for a vote switch and for a cascading delete. -/
theorem C2_unique_votes_preserved_witness :
    UniqueVotes votedSt.votes
      ∧ UniqueVotes ((vote_post votedSt 1 1 false).2.votes)
      ∧ UniqueVotes ((delete_post votedSt 1 (some 1)).2.votes) :=
  ⟨by decide, (C2_unique_votes_preserved votedSt (by decide)).1 1 1 false,
    (C2_unique_votes_preserved votedSt (by decide)).2.1 1 (some 1)⟩

/-- C1: the three-state transition table of VoteService.vote_post on a store
whose votes table satisfies the uniqueness invariant. If the post is
absent the call fails with the Post not found error and the store is
unchanged. If the post exists: no vote plus a request inserts the
requested type and reports added; an equal-typed vote is deleted and
reported removed; an opposite-typed vote is retyped in place and
reported updated. -/
theorem C1_vote_transition_table (s : St) (uid pid : Nat) (vt : Bool)
    (hu : UniqueVotes s.votes) :
    (getPost s pid = none →
        vote_post s uid pid vt = (.error ("Post not found"), s))
      ∧ ((∃ post, getPost s pid = some post) →
          (userVote s uid pid = none →
              (vote_post s uid pid vt).1 = .ok ("added")
              ∧ userVote (vote_post s uid pid vt).2 uid pid = some vt)
          ∧ (userVote s uid pid = some vt →
              (vote_post s uid pid vt).1 = .ok ("removed")
              ∧ userVote (vote_post s uid pid vt).2 uid pid = none)
          ∧ (userVote s uid pid = some (!vt) →
              (vote_post s uid pid vt).1 = .ok ("updated")
              ∧ userVote (vote_post s uid pid vt).2 uid pid = some vt)) := by
  constructor
  · exact vote_post_absent s uid pid vt
  · rintro ⟨post, hpost⟩
    refine ⟨?_, ?_, ?_⟩
    · intro hnone
      have hfv : findVote s.votes uid pid = none := by
        unfold userVote at hnone
        exact Option.map_eq_none.mp hnone
      rw [vote_post_added s uid pid vt post hpost hfv]
      exact ⟨rfl, by
        unfold userVote
        rw [show findVote ({ s with votes := s.votes
              ++ [{ user_id := uid, post_id := pid, vote_type := vt }] } : St).votes uid pid
            = some { user_id := uid, post_id := pid, vote_type := vt }
          from findVote_append_matching s.votes uid pid vt hfv]
        rfl⟩
    · intro hsame
      unfold userVote at hsame
      cases hfv : findVote s.votes uid pid with
      | none =>
        rw [hfv] at hsame
        cases hsame
      | some ev =>
        rw [hfv] at hsame
        have hevt : ev.vote_type = vt := by simpa using hsame
        rw [vote_post_removed s uid pid vt post ev hpost hfv hevt]
        exact ⟨rfl, by
          unfold userVote
          rw [show findVote ({ s with votes := eraseVote s.votes uid pid } : St).votes uid pid = none
            from findVote_eraseVote_self s.votes uid pid hu]
          rfl⟩
    · intro hdiff
      unfold userVote at hdiff
      cases hfv : findVote s.votes uid pid with
      | none =>
        rw [hfv] at hdiff
        cases hdiff
      | some ev =>
        rw [hfv] at hdiff
        have hevt : ev.vote_type = !vt := by simpa using hdiff
        have hne : ev.vote_type ≠ vt := by
          rw [hevt]
          exact (Bool.not_ne_self vt)
        rw [vote_post_updated s uid pid vt post ev hpost hfv hne]
        exact ⟨rfl, by
          unfold userVote
          rw [show findVote ({ s with votes := updateVote s.votes uid pid vt } : St).votes uid pid
              = some { ev with vote_type := vt }
            from findVote_updateVote_self s.votes uid pid vt ev hfv]
          rfl⟩

/-- C1 witness: the added transition instantiated on the sample store, which
holds no votes, and the not-found failure on a missing post id. -/
theorem C1_vote_transition_table_witness :
    UniqueVotes sampleSt.votes
      ∧ getPost sampleSt 1 = some postA
      ∧ userVote sampleSt 1 1 = none
      ∧ (vote_post sampleSt 1 1 true).1 = .ok ("added")
      ∧ userVote (vote_post sampleSt 1 1 true).2 1 1 = some true
      ∧ getPost sampleSt 99 = none
      ∧ vote_post sampleSt 1 99 true = (.error ("Post not found"), sampleSt) :=
  ⟨by decide, by decide, by decide,
    (((C1_vote_transition_table sampleSt 1 1 true (by decide)).2
        ⟨postA, by decide⟩).1 (by decide)).1,
    (((C1_vote_transition_table sampleSt 1 1 true (by decide)).2
        ⟨postA, by decide⟩).1 (by decide)).2,
    by decide,
    (C1_vote_transition_table sampleSt 1 99 true (by decide)).1 (by decide)⟩

/-- C3 counterexample: the claim quantifies over every starting vote state,
but when user 1 already upvoted post 1, two further upvotes end with an
upvote in place, not in the no-vote state: the first upvote toggles the
existing vote off and the second adds it back. -/
theorem C3_counterexample_same_type_start :
    userVote votedSt 1 1 = some true
      ∧ userVote (vote_post (vote_post votedSt 1 1 true).2 1 1 true).2 1 1
          ≠ none := by
  decide

/-- C3 amended: for every user u and existing post p, if u does not already
hold a vote of the requested type on p (u has no vote, or a vote of the
opposite type), two successive vote_post calls with the same vote_type
return the (u, p) pair to the no-vote state. -/
theorem C3_double_same_vote_returns_to_none (s : St) (uid pid : Nat) (vt : Bool)
    (hu : UniqueVotes s.votes) (post : Post) (hpost : getPost s pid = some post)
    (hnot : userVote s uid pid ≠ some vt) :
    userVote (vote_post (vote_post s uid pid vt).2 uid pid vt).2 uid pid
      = none := by
  cases hfv : findVote s.votes uid pid with
  | none =>
    rw [vote_post_added s uid pid vt post hpost hfv]
    set s1 : St := { s with votes := s.votes
        ++ [{ user_id := uid, post_id := pid, vote_type := vt }] } with hs1
    have hpost1 : getPost s1 pid = some post := hpost
    have hfv1 : findVote s1.votes uid pid
        = some { user_id := uid, post_id := pid, vote_type := vt } :=
      findVote_append_matching s.votes uid pid vt hfv
    have hu1 : UniqueVotes s1.votes := unique_append_new s.votes uid pid vt hu hfv
    rw [vote_post_removed s1 uid pid vt post _ hpost1 hfv1 rfl]
    unfold userVote
    rw [findVote_eraseVote_self s1.votes uid pid hu1]
    rfl
  | some ev =>
    have hne : ev.vote_type ≠ vt := by
      intro he
      refine hnot ?_
      unfold userVote
      rw [hfv]
      simp [he]
    rw [vote_post_updated s uid pid vt post ev hpost hfv hne]
    set s1 : St := { s with votes := updateVote s.votes uid pid vt } with hs1
    have hpost1 : getPost s1 pid = some post := hpost
    have hfv1 : findVote s1.votes uid pid = some { ev with vote_type := vt } :=
      findVote_updateVote_self s.votes uid pid vt ev hfv
    have hu1 : UniqueVotes s1.votes := unique_updateVote s.votes uid pid vt hu
    rw [vote_post_removed s1 uid pid vt post _ hpost1 hfv1 rfl]
    unfold userVote
    rw [findVote_eraseVote_self s1.votes uid pid hu1]
    rfl

/-- C3 amended witness: a double upvote from the no-vote sample store ends
with no vote row. -/
theorem C3_double_same_vote_returns_to_none_witness :
    UniqueVotes sampleSt.votes ∧ getPost sampleSt 1 = some postA
      ∧ userVote sampleSt 1 1 ≠ some true
      ∧ userVote (vote_post (vote_post sampleSt 1 1 true).2 1 1 true).2 1 1
          = none :=
  ⟨by decide, by decide, by decide,
    C3_double_same_vote_returns_to_none sampleSt 1 1 true (by decide) postA
      (by decide) (by decide)⟩

/-- C4 counterexample: the score trajectory of upvote-then-downvote is
0, 1, -1, so the net change relative to before the upvote is -1; the
difference of exactly -2 claimed for that baseline fails on the sample
store (it holds relative to after the upvote). -/
theorem C4_counterexample_net_change :
    vote_score sampleSt 1 = 0
      ∧ vote_score (vote_post (vote_post sampleSt 1 1 true).2 1 1 false).2 1
          = -1
      ∧ vote_score (vote_post (vote_post sampleSt 1 1 true).2 1 1 false).2 1
          - vote_score sampleSt 1 ≠ -2 := by
  decide

/-- C4 amended: for every user u and existing post p with no votes, an upvote
by u followed by a downvote by u moves the net score from 0 to 1 to -1;
the downvote step changes the score by exactly -2 relative to after the
upvote (relative to before the upvote the change is -1). -/
theorem C4_upvote_then_downvote_score (s : St) (uid pid : Nat) (post : Post)
    (hpost : getPost s pid = some post)
    (hno : s.votes.filter (fun v => v.post_id == pid) = []) :
    vote_score s pid = 0
      ∧ vote_score (vote_post s uid pid true).2 pid = 1
      ∧ vote_score (vote_post (vote_post s uid pid true).2 uid pid false).2 pid
          = -1
      ∧ vote_score (vote_post (vote_post s uid pid true).2 uid pid false).2 pid
          - vote_score (vote_post s uid pid true).2 pid = -2 := by
  have hfv : findVote s.votes uid pid = none :=
    findVote_none_of_no_post_votes s.votes uid pid hno
  have hs1 : vote_post s uid pid true
      = (.ok ("added"), { s with votes := s.votes
          ++ [{ user_id := uid, post_id := pid, vote_type := true }] }) :=
    vote_post_added s uid pid true post hpost hfv
  have hpost1 : getPost ({ s with votes := s.votes
      ++ [{ user_id := uid, post_id := pid, vote_type := true }] } : St) pid
      = some post := hpost
  have hfv1 : findVote ({ s with votes := s.votes
      ++ [{ user_id := uid, post_id := pid, vote_type := true }] } : St).votes
      uid pid = some { user_id := uid, post_id := pid, vote_type := true } :=
    findVote_append_matching s.votes uid pid true hfv
  have hs2 : vote_post ({ s with votes := s.votes
      ++ [{ user_id := uid, post_id := pid, vote_type := true }] } : St)
      uid pid false
      = (.ok ("updated"), { s with votes := (updateVote
          (s.votes ++ [{ user_id := uid, post_id := pid, vote_type := true }])
          uid pid false) }) :=
    vote_post_updated _ uid pid false post _ hpost1 hfv1 (by simp)
  have hupd : updateVote (s.votes
      ++ [{ user_id := uid, post_id := pid, vote_type := true }]) uid pid false
      = s.votes ++ [{ user_id := uid, post_id := pid, vote_type := false }] :=
    updateVote_append_of_none s.votes uid pid false
      { user_id := uid, post_id := pid, vote_type := true } hfv (by simp)
  have h0 : vote_score s pid = 0 := scoreL_no_votes s.votes pid hno
  have h1 : vote_score (vote_post s uid pid true).2 pid = 1 := by
    rw [hs1]
    show vote_scoreL (s.votes
      ++ [{ user_id := uid, post_id := pid, vote_type := true }]) pid = 1
    rw [scoreL_single s.votes pid uid true hno]
    rfl
  have h2 : vote_score (vote_post (vote_post s uid pid true).2 uid pid false).2
      pid = -1 := by
    rw [hs1, hs2, hupd]
    show vote_scoreL (s.votes
      ++ [{ user_id := uid, post_id := pid, vote_type := false }]) pid = -1
    rw [scoreL_single s.votes pid uid false hno]
    rfl
  refine ⟨h0, h1, h2, ?_⟩
  rw [h1, h2]
  rfl

/-- C4 amended witness: the score trajectory on the sample store. -/
theorem C4_upvote_then_downvote_score_witness :
    getPost sampleSt 1 = some postA
      ∧ sampleSt.votes.filter (fun v => v.post_id == 1) = []
      ∧ vote_score sampleSt 1 = 0
      ∧ vote_score (vote_post sampleSt 1 1 true).2 1 = 1
      ∧ vote_score (vote_post (vote_post sampleSt 1 1 true).2 1 1 false).2 1
          = -1 :=
  ⟨by decide, by decide,
    (C4_upvote_then_downvote_score sampleSt 1 1 postA (by decide) (by decide)).1,
    (C4_upvote_then_downvote_score sampleSt 1 1 postA (by decide)
      (by decide)).2.1,
    (C4_upvote_then_downvote_score sampleSt 1 1 postA (by decide)
      (by decide)).2.2.1⟩

/-- C5 counterexample: update_post can clear a field to the empty string
after all: a whitespace-only title is truthy in Python, so it passes the
skip check, and stripping then leaves the empty string. -/
theorem C5_counterexample_whitespace_clears :
    postA.title ≠ ("")
      ∧ (update_post sampleSt 1 (some (" ")) none none 99).1
          = .ok { postA with title := (""), updated_at := 99 } := by
  decide

/-- C5 amended: update_post on an existing post applies a partial update in
which an omitted (None) or empty-string text field and an omitted or
zero author_id are ignored and keep the stored values - in particular a
title-only update leaves the body unchanged, and no field can be cleared
by passing the empty string itself. A whitespace-only string, however,
is truthy, gets stripped, and does clear the field to empty. -/
theorem C5_partial_update_ignores_falsy (s : St) (pid : Nat) (post : Post)
    (title body : Option String) (aid : Option Nat) (now : Nat)
    (hpost : getPost s pid = some post) :
    ∀ p4, (update_post s pid title body aid now).1 = .ok p4 →
      ((title = none ∨ title = some ("")) → p4.title = post.title)
      ∧ ((body = none ∨ body = some ("")) → p4.body = post.body)
      ∧ ((aid = none ∨ aid = some 0) → p4.author_id = post.author_id) := by
  intro p4 hp4
  rw [update_post_found s pid post title body aid now hpost] at hp4
  obtain rfl := Except.ok.inj hp4
  refine ⟨?_, ?_, ?_⟩
  · rintro (rfl | rfl) <;> simp [truthyStr]
  · rintro (rfl | rfl) <;> simp [truthyStr]
  · rintro (rfl | rfl) <;> simp [truthyNat]

/-- C5 witness: a title-only update of the sample post keeps its body and
author_id. -/
theorem C5_partial_update_ignores_falsy_witness :
    getPost sampleSt 1 = some postA
      ∧ (update_post sampleSt 1 (some ("New title")) none none 99).1
          = .ok { postA with title := ("New title"), updated_at := 99 }
      ∧ { postA with title := ("New title"), updated_at := 99 }.body
          = postA.body
      ∧ { postA with title := ("New title"), updated_at := 99 }.author_id
          = postA.author_id :=
  ⟨by decide, by decide,
    (C5_partial_update_ignores_falsy sampleSt 1 postA (some ("New title")) none
        none 99 (by decide)
        { postA with title := ("New title"), updated_at := 99 }
        (by decide)).2.1 (Or.inl rfl),
    (C5_partial_update_ignores_falsy sampleSt 1 postA (some ("New title")) none
        none 99 (by decide)
        { postA with title := ("New title"), updated_at := 99 }
        (by decide)).2.2 (Or.inl rfl)⟩

/-- C9: an existing but unpublished post is returned successfully by
get_post_by_id, yet never appears in any successful get_all_posts page
nor in any successful search_posts page, whatever the paging, sorting or
query arguments: unpublished posts are retrievable only by direct id
lookup. -/
theorem C9_unpublished_only_by_id (s : St) (p : Post) (hp : p ∈ s.posts)
    (hids : (s.posts.map Post.id).Nodup) (hunpub : p.is_published = false) :
    get_post_by_id s p.id = .ok p
      ∧ (∀ page per_page sort_by ord l,
          get_all_posts s page per_page sort_by ord = .ok l → p ∉ l)
      ∧ (∀ q page per_page l,
          search_posts s q page per_page = .ok l → p ∉ l) := by
  have hmain : ∀ page per_page sort_by ord l,
      get_all_posts s page per_page sort_by ord = .ok l → p ∉ l := by
    intro page per sort ord l h hl
    unfold get_all_posts at h
    by_cases hc : postProperties.contains sort = true
    · rw [if_pos hc] at h
      cases h
    · rw [if_neg hc] at h
      obtain rfl := Except.ok.inj h
      have h1 := mem_paginate _ _ _ _ hl
      have h2 := (mem_orderBy _ _ _).mp h1
      have h3 := (List.mem_filter.mp h2).2
      simp [hunpub] at h3
  refine ⟨?_, hmain, ?_⟩
  · unfold get_post_by_id getPost
    rw [find?_id_of_nodup s.posts p hids hp]
  · intro q page per l h hl
    unfold search_posts at h
    by_cases hb : (q == ("") || pyStrip q == ("")) = true
    · rw [if_pos hb] at h
      exact hmain page per _ _ l h hl
    · rw [if_neg hb] at h
      obtain rfl := Except.ok.inj h
      have h1 := mem_paginate _ _ _ _ hl
      have h2 := (mem_orderBy _ _ _).mp h1
      have h3 := (List.mem_filter.mp h2).2
      simp [hunpub] at h3

/-- C9 witness: post 2 of the sample store is unpublished; it is returned by
id lookup and missing from the default listing and from a search that
matches its title. -/
theorem C9_unpublished_only_by_id_witness :
    postB ∈ sampleSt.posts ∧ (sampleSt.posts.map Post.id).Nodup
      ∧ postB.is_published = false
      ∧ get_post_by_id sampleSt postB.id = .ok postB
      ∧ get_all_posts sampleSt 1 10 ("published_at") ("desc") = .ok [postA]
      ∧ search_posts sampleSt ("post") 1 10 = .ok [postA]
      ∧ postB ∉ ([postA] : List Post) :=
  ⟨by decide, by decide, by decide,
    (C9_unpublished_only_by_id sampleSt postB (by decide) (by decide)
      (by decide)).1,
    by decide, by decide,
    (C9_unpublished_only_by_id sampleSt postB (by decide) (by decide)
      (by decide)).2.1 1 10 ("published_at") ("desc") [postA] (by decide)⟩

/-- C10: an existing post whose author_id is NULL cannot be deleted by any
nonzero requesting author id: delete_post fails with the Unauthorized
error and the whole store, the post included, is unchanged. Since the
DELETE route always passes the authenticated user id, which is a nonzero
primary key, such a post is undeletable through the API. -/
theorem C10_orphan_post_undeletable (s : St) (pid a : Nat) (post : Post)
    (hfind : getPost s pid = some post) (hnull : post.author_id = none)
    (ha : a ≠ 0) :
    delete_post s pid (some a)
      = ((false, some ("Unauthorized to delete this post")), s) := by
  unfold delete_post
  rw [hfind]
  simp [truthyNat, hnull, ha]

/-- C10 witness: post 2 of the sample store has no author and survives a
delete requested by user 5. -/
theorem C10_orphan_post_undeletable_witness :
    getPost sampleSt 2 = some postB ∧ postB.author_id = none ∧ (5 : Nat) ≠ 0
      ∧ delete_post sampleSt 2 (some 5)
          = ((false, some ("Unauthorized to delete this post")), sampleSt) :=
  ⟨by decide, by decide, by decide,
    C10_orphan_post_undeletable sampleSt 2 5 postB (by decide) (by decide)
      (by decide)⟩

end BlogAPI
